import Mathlib

/-!
Shallow embedding of the live-track reconciliation engine of `tacview_live`
(src/src/opensky.rs, src/src/aisstream.rs, src/src/main.rs).

The program is a Bevy ECS application.  We embed the ECS world as a list of
entities with optional components, and each per-frame system as a pure
function on that world.  Rust `f64` fields are embedded as `Rat` (they are
only copied and compared for equality, never used arithmetically), machine
integers as `Nat`/`Int`, and fallible deserialization as `Option`.
A `.unwrap()` on a failed deserialization (a Rust panic) is embedded as the
whole handler returning `none`.

Deferred ECS commands (`commands.spawn_batch`, `commands.spawn`) are applied
at the end-of-tick flush, matching Bevy's command application: a query run
inside the same tick does not see entities or components inserted through
`commands`.  Bevy's `Added<T>`/`Changed<T>` change-detection filters are
embedded as per-entity boolean flags that are set by the mutating systems and
consumed (cleared) at the end of the tick in which the watchers observe them.
-/

/-- `bevy_tacview::record::Coords` (external data type used by the payloads;
plain record of optional coordinate fields). -/
structure Coords where
  longitude : Option Rat
  latitude : Option Rat
  altitude : Option Rat
  u : Option Rat
  v : Option Rat
  roll : Option Rat
  pitch : Option Rat
  yaw : Option Rat
  heading : Option Rat
deriving DecidableEq

/-- `bevy_tacview::record::Tag` (only the variant used by this repository). -/
inductive Tag
  | Watercraft
deriving DecidableEq

/-- `bevy_tacview::record::Property` (only the variants used by this
repository).  The Rust variant `Property::Type(HashSet<Tag>)` is embedded as
`Type'` carrying a list of tags (the code only ever builds a singleton set). -/
inductive Property
  | Name (s : String)
  | ICAO24 (s : String)
  | Country (s : String)
  | CallSign (s : String)
  | Type' (tags : List Tag)
deriving DecidableEq

/-- `bevy_tacview::systems::ObjectNeedSync`: the lifecycle-event marker
component inserted for the sink (Spawn / Update / Destroy). -/
inductive ObjectNeedSync
  | Spawn
  | Update
  | Destroy
deriving DecidableEq

/-- Modelled from the spec: the fixed initial value of the liveness flag set
on Spawn ("is set to a fixed initial value on Spawn"); the concrete initial
value lives in the external `bevy_activation` crate. -/
def activeInit : Bool := true

/-- Modelled from the spec: `bevy_activation::ActiveState`, the liveness state
attached to each record.  It carries the heartbeat flag (`active`, toggled on
every accepted change), the feed's timeout window (`timeout`; `none` means the
record never times out, as built by `ActiveState::always()`), and the
last-seen timestamp the Liveness Sweeper compares against the current time. -/
structure ActiveState where
  active : Bool
  timeout : Option Nat
  last_seen : Nat
deriving DecidableEq

/-- `ActiveState::new(duration)`: finite timeout window, started now. -/
def ActiveState.new (t : Nat) (now : Nat) : ActiveState :=
  { active := activeInit, timeout := some t, last_seen := now }

/-- `ActiveState::always()`: no timeout window; never swept. -/
def ActiveState.always : ActiveState :=
  { active := activeInit, timeout := none, last_seen := 0 }

/-- Modelled from the spec: `ActiveState::toggle()` flips the heartbeat flag
("the liveness flag flips on every accepted Change relative to its prior
value") and refreshes the record's last-seen stamp ("with `last_seen`
refreshed" on accepted reports); the implementation is in the external
`bevy_activation` crate. -/
def ActiveState.toggle (a : ActiveState) (now : Nat) : ActiveState :=
  { a with active := !a.active, last_seen := now }

/-- `StateVector` (src/src/opensky.rs, lines 110-198): the aircraft report /
stored component.  All fields of the Rust struct are kept; `f64` becomes
`Rat`, `u64`/`u8`/`u32` become `Nat`. -/
structure StateVector where
  icao24 : String
  callsign : Option String
  origin_country : String
  time_position : Option Nat
  last_contact : Nat
  longitude : Option Rat
  latitude : Option Rat
  baro_altitude : Option Rat
  on_ground : Bool
  velocity : Option Rat
  true_track : Option Rat
  vertical_rate : Option Rat
  sensors : Option (List Nat)
  geo_altitude : Option Rat
  squawk : Option String
  spi : Bool
  position_source : Nat
  category : Option Nat
deriving DecidableEq

/-- `impl PartialEq for StateVector` (src/src/opensky.rs, lines 200-204): the
hand-written equality used by `set_if_neq`; it compares only `icao24` and
`time_position`, ignoring every other field. -/
def StateVector.eqv (a b : StateVector) : Prop :=
  a.icao24 = b.icao24 ∧ a.time_position = b.time_position

instance (a b : StateVector) : Decidable (StateVector.eqv a b) :=
  inferInstanceAs (Decidable (a.icao24 = b.icao24 ∧ a.time_position = b.time_position))

/-- `InnerStateVector` (src/src/opensky.rs, lines 88-108): the positional
tuple deserialized from the OpenSky response; field `fN` is tuple slot `N`. -/
structure InnerStateVector where
  f0 : String
  f1 : Option String
  f2 : String
  f3 : Option Nat
  f4 : Nat
  f5 : Option Rat
  f6 : Option Rat
  f7 : Option Rat
  f8 : Bool
  f9 : Option Rat
  f10 : Option Rat
  f11 : Option Rat
  f12 : Option (List Nat)
  f13 : Option Rat
  f14 : Option String
  f15 : Bool
  f16 : Nat
deriving DecidableEq

/-- `impl From<InnerStateVector> for StateVector` (src/src/opensky.rs,
lines 206-229); note `category` is always set to `None`. -/
def StateVector.fromInner (i : InnerStateVector) : StateVector :=
  { icao24 := i.f0
    callsign := i.f1
    origin_country := i.f2
    time_position := i.f3
    last_contact := i.f4
    longitude := i.f5
    latitude := i.f6
    baro_altitude := i.f7
    on_ground := i.f8
    velocity := i.f9
    true_track := i.f10
    vertical_rate := i.f11
    sensors := i.f12
    geo_altitude := i.f13
    squawk := i.f14
    spi := i.f15
    position_source := i.f16
    category := none }

/-- `StateResponse` (src/src/opensky.rs, lines 82-86). -/
structure StateResponse where
  time : Nat
  states : List InnerStateVector
deriving DecidableEq

/-- `MetaData` (src/src/aisstream.rs, lines 179-189): the vessel report /
stored component; derives `PartialEq`, so its `set_if_neq` equality is full
field-wise structural equality. -/
structure MetaData where
  mmsi : Int
  ship_name : String
  longitude : Rat
  latitude : Rat
  time_utc : String
deriving DecidableEq

/-- `AuthMessage` (src/src/aisstream.rs, lines 83-95).  The `Message` payload
is a raw `serde_json::Value` from which `m["MetaData"]` is deserialized with
`.unwrap()`; we embed that payload as the result of the `MetaData`
deserialization (`none` when it fails, in which case the `.unwrap()` panics). -/
inductive AuthMessage
  | AuthError (error : String)
  | Message (meta : Option MetaData)
deriving DecidableEq

/-- One ECS entity of the app world: an identifier (the Bevy `Entity`, the
record's internal handle) plus optional components.  `stateChanged` /
`stateAdded` embed the `Changed<StateVector>` / `Added<StateVector>`
change-detection flags for the current tick, `metaChanged` / `metaAdded` the
same for `MetaData`. -/
structure TrackEntity where
  id : Nat
  state : Option StateVector
  meta : Option MetaData
  coords : Option Coords
  props : Option (List Property)
  sync : Option ObjectNeedSync
  active : Option ActiveState
  stateChanged : Bool
  stateAdded : Bool
  metaChanged : Bool
  metaAdded : Bool
deriving DecidableEq

/-- The ECS world: committed entities plus the entity-id allocator. -/
structure World where
  entities : List TrackEntity
  nextId : Nat
deriving DecidableEq

def World.empty : World := { entities := [], nextId := 0 }

/-- `MSSIIndex` (src/src/aisstream.rs, line 98): `HashMap<i32, Entity>`,
embedded as an association list. -/
abbrev MSSIIndex : Type := List (Int × Nat)

def indexGet : MSSIIndex → Int → Option Nat
  | [], _ => none
  | (k0, v0) :: rest, k => if k0 = k then some v0 else indexGet rest k

def indexInsert : MSSIIndex → Int → Nat → MSSIIndex
  | [], k, v => [(k, v)]
  | (k0, v0) :: rest, k, v =>
    if k0 = k then (k, v) :: rest else (k0, v0) :: indexInsert rest k v

/-! ## OpenSky feed systems (src/src/opensky.rs) -/

namespace opensky

/-- `to_coords` (src/src/opensky.rs, lines 377-389). -/
def to_coords (state : StateVector) : Coords :=
  { longitude := state.longitude
    latitude := state.latitude
    altitude := state.baro_altitude
    u := none
    v := none
    roll := some 0
    pitch := some 0
    yaw := state.true_track
    heading := none }

/-- `to_props` (src/src/opensky.rs, lines 391-403). -/
def to_props (state : StateVector) : List Property :=
  let list := [Property.Name state.icao24, Property.ICAO24 state.icao24,
               Property.Country state.origin_country]
  match state.callsign with
  | some call_sign => list ++ [Property.CallSign call_sign]
  | none => list

end opensky

/-- The inner `for mut state in query.iter_mut()` loop of
`handle_state_response` (src/src/opensky.rs, lines 305-311): scan the
committed entities that have a `StateVector` component; on the first one whose
`icao24` equals the incoming report's, apply `state.set_if_neq(new_state)`
(replace the component and set the `Changed` flag when the two differ under
the hand-written `PartialEq`, do nothing when they are equal) and stop.
Returns `none` when no committed entity carries the key (`not_find`). -/
def set_if_neq_first : List TrackEntity → StateVector → Option (List TrackEntity)
  | [], _ => none
  | e :: rest, new =>
    match e.state with
    | some sv =>
      if sv.icao24 = new.icao24 then
        if StateVector.eqv sv new then some (e :: rest)
        else some ({ e with state := some new, stateChanged := true } :: rest)
      else
        match set_if_neq_first rest new with
        | some r => some (e :: r)
        | none => none
    | none =>
      match set_if_neq_first rest new with
      | some r => some (e :: r)
      | none => none

/-- The body of the labelled `'a` loop of `handle_state_response`
(src/src/opensky.rs, lines 303-316) for one incoming state: update the first
committed entity with the same `icao24` in place, or append the report to
`new_batches` (the pending spawn list, not visible to the query). -/
def upsert_state (w : World) (pend : List StateVector) (new : StateVector) :
    World × List StateVector :=
  match set_if_neq_first w.entities new with
  | some ents => ({ w with entities := ents }, pend)
  | none => (w, pend ++ [new])

/-- The labelled `'a` loop of `handle_state_response` over one decoded batch. -/
def upsert_states : World → List StateVector → List StateVector →
    World × List StateVector
  | w, pend, [] => (w, pend)
  | w, pend, s :: rest =>
    match upsert_state w pend s with
    | (w1, p1) => upsert_states w1 p1 rest

/-- `handle_state_response` (src/src/opensky.rs, lines 287-325): drain the
tick's `HttpResponse` events; each response either decodes to a
`StateResponse` (then its states are mapped through `From` and upserted) or
fails to decode, in which case the system logs and `return`s — aborting the
remaining responses of this tick.  The accumulated `new_batches` are handed to
`commands.spawn_batch`, i.e. become this tick's pending spawns. -/
def handle_state_response : List (Option StateResponse) → World →
    List StateVector → World × List StateVector
  | [], w, pend => (w, pend)
  | none :: _, w, pend => (w, pend)
  | some r :: rest, w, pend =>
    match upsert_states w pend (r.states.map StateVector.fromInner) with
    | (w1, p1) => handle_state_response rest w1 p1

/-- A freshly spawned aircraft entity: only the `StateVector` component, with
`Added`/`Changed` flags set by the spawn. -/
def newAircraft (id : Nat) (sv : StateVector) : TrackEntity :=
  { id := id, state := some sv, meta := none, coords := none, props := none,
    sync := none, active := none,
    stateChanged := true, stateAdded := true, metaChanged := false, metaAdded := false }

/-- End-of-tick application of `commands.spawn_batch(new_batches)`: each
pending report becomes a new entity with a fresh id from the allocator. -/
def World.flushAircraft (w : World) (pend : List StateVector) : World :=
  { entities := w.entities ++ pend.enum.map (fun p => newAircraft (w.nextId + p.1) p.2)
    nextId := w.nextId + pend.length }

/-- Per-entity body of `watch_changed` (src/src/opensky.rs, lines 348-368):
for entities matching `Changed<StateVector>` that carry `Coords`,
`PropertyList` and `ActiveState`, refresh coords and props from the stored
state (`set_if_neq` on the payload components: the final value is the derived
one either way), toggle the liveness state, and insert
`ObjectNeedSync::Update`. -/
def opensky_watch_changed_entity (now : Nat) (e : TrackEntity) : TrackEntity :=
  if e.stateChanged then
    match e.state, e.coords, e.props, e.active with
    | some sv, some _, some _, some a =>
      { e with coords := some (opensky.to_coords sv)
               props := some (opensky.to_props sv)
               active := some (a.toggle now)
               sync := some ObjectNeedSync.Update }
    | _, _, _, _ => e
  else e

def opensky_watch_changed (now : Nat) (w : World) : World :=
  { w with entities := w.entities.map (opensky_watch_changed_entity now) }

/-- Per-entity body of `watch_added` (src/src/opensky.rs, lines 333-346): for
entities matching `Added<StateVector>`, insert the derived coords and props,
the `ObjectNeedSync::Spawn` marker, and `ActiveState::new(20 seconds)`. -/
def opensky_watch_added_entity (now : Nat) (e : TrackEntity) : TrackEntity :=
  if e.stateAdded then
    match e.state with
    | some sv =>
      { e with coords := some (opensky.to_coords sv)
               props := some (opensky.to_props sv)
               sync := some ObjectNeedSync.Spawn
               active := some (ActiveState.new 20 now) }
    | none => e
  else e

def opensky_watch_added (now : Nat) (w : World) : World :=
  { w with entities := w.entities.map (opensky_watch_added_entity now) }

/-- End-of-tick consumption of the change-detection flags. -/
def TrackEntity.clearFlags (e : TrackEntity) : TrackEntity :=
  { e with stateChanged := false, stateAdded := false,
           metaChanged := false, metaAdded := false }

def World.clearFlags (w : World) : World :=
  { w with entities := w.entities.map TrackEntity.clearFlags }

/-- One reconciliation tick of the OpenSky feed: `handle_state_response` over
the tick's decoded responses, the command flush spawning `new_batches`, then
the two watcher systems.  `watch_changed` is applied before the deferred
component inserts of `watch_added` become visible, exactly as in Bevy a
freshly spawned entity does not yet carry `Coords` when `watch_changed` can
still observe its `Changed<StateVector>` flag — so a spawn never also yields
an Update. -/
def opensky_tick (now : Nat) (responses : List (Option StateResponse)) (w : World) : World :=
  match handle_state_response responses w [] with
  | (w1, pend) =>
    World.clearFlags (opensky_watch_added now (opensky_watch_changed now (World.flushAircraft w1 pend)))

/-! ## Liveness sweep (bevy_activation, `watch_timeout` handlers) -/

/-- Modelled from the spec: the Liveness Sweeper of the external
`bevy_activation` crate — "compares each record's last-seen timestamp against
the current time and a feed-specific timeout window" and raises a
`TimeoutEvent` for records that exceed it (`now − last_seen > timeout`).
A record whose `ActiveState` has no window (`ActiveState::always()`) is never
selected. -/
def expired (now : Nat) (e : TrackEntity) : Bool :=
  match e.active with
  | some a =>
    match a.timeout with
    | some t => decide (now - a.last_seen > t)
    | none => false
  | none => false

/-- Modelled from the spec: the `TimeoutEvent`s raised by one sweep — the ids
of all records whose age exceeds their window. -/
def sweepTimeouts (now : Nat) (w : World) : List Nat :=
  (w.entities.filter (expired now)).map TrackEntity.id

/-- `watch_timeout` (src/src/opensky.rs, lines 370-375, and src/src/main.rs,
lines 53-58): for every `TimeoutEvent`, insert `ObjectNeedSync::Destroy` on
the named entity.  Nothing is despawned and no index entry is removed. -/
def watch_timeout (events : List Nat) (w : World) : World :=
  { w with entities := w.entities.map (fun e =>
      if e.id ∈ events then { e with sync := some ObjectNeedSync.Destroy } else e) }

/-- One sweep tick: raise the timeout events and run the `watch_timeout`
handler on them. -/
def sweep_tick (now : Nat) (w : World) : World :=
  watch_timeout (sweepTimeouts now w) w

/-! ## AISStream feed systems (src/src/aisstream.rs) -/

namespace aisstream

/-- `to_coords` (src/src/aisstream.rs, lines 239-251): vessel altitude is the
ground-level sentinel `Some(0.0)`. -/
def to_coords (position_report : MetaData) : Coords :=
  { longitude := some position_report.longitude
    latitude := some position_report.latitude
    altitude := some 0
    u := none
    v := none
    roll := none
    pitch := none
    yaw := none
    heading := none }

/-- `to_props` (src/src/aisstream.rs, lines 253-260). -/
def to_props (meta_data : MetaData) : List Property :=
  [Property.CallSign meta_data.ship_name, Property.Type' [Tag.Watercraft]]

end aisstream

/-- Per-entity body of the `set_if_neq` update of `handle_raw_packet`
(src/src/aisstream.rs, lines 122-128): `q_vessels.get_mut(*entity)` succeeds
only for a committed entity carrying a `MetaData` component; on success the
component is replaced (and flagged changed) exactly when the incoming metadata
differs under the derived full structural `PartialEq`.  When the lookup fails
(entity pending or despawned) the report is silently dropped. -/
def set_meta_if_neq_entity (ent : Nat) (md : MetaData) (e : TrackEntity) : TrackEntity :=
  if e.id = ent then
    match e.meta with
    | some old => if old = md then e else { e with meta := some md, metaChanged := true }
    | none => e
  else e

def World.set_meta_if_neq (w : World) (ent : Nat) (md : MetaData) : World :=
  { w with entities := w.entities.map (set_meta_if_neq_entity ent md) }

/-- `handle_raw_packet` (src/src/aisstream.rs, lines 100-139): drain the
received frames.  Each frame is deserialized with
`serde_json::from_slice(&packet.bytes).unwrap()` — a frame that is not valid
for the expected shape panics the system (embedded as `none`, aborting the
remaining frames).  An `AuthError` is only logged.  For a `Message`, the
`MetaData` value is extracted with a second `.unwrap()` (again a panic when it
fails).  A known `MMSI` updates the committed entity through `set_if_neq`;
an unknown one reserves a fresh entity id, records it in the index
immediately, and defers the spawn of the `MetaData` component to the command
flush (so it is not yet visible to `q_vessels` for later frames of the same
tick). -/
def handle_raw_packet : List (Option AuthMessage) → World → MSSIIndex →
    List (Nat × MetaData) → Option (World × MSSIIndex × List (Nat × MetaData))
  | [], w, idx, pend => some (w, idx, pend)
  | none :: _, _, _, _ => none
  | some (AuthMessage.AuthError _) :: rest, w, idx, pend =>
    handle_raw_packet rest w idx pend
  | some (AuthMessage.Message none) :: _, _, _, _ => none
  | some (AuthMessage.Message (some md)) :: rest, w, idx, pend =>
    match indexGet idx md.mmsi with
    | some entity => handle_raw_packet rest (World.set_meta_if_neq w entity md) idx pend
    | none =>
      let entity := w.nextId + pend.length
      handle_raw_packet rest w (indexInsert idx md.mmsi entity) (pend ++ [(entity, md)])

/-- A freshly spawned vessel entity: only the `MetaData` component, with its
`Added`/`Changed` flags set by the spawn. -/
def newVessel (id : Nat) (md : MetaData) : TrackEntity :=
  { id := id, state := none, meta := some md, coords := none, props := none,
    sync := none, active := none,
    stateChanged := false, stateAdded := false, metaChanged := true, metaAdded := true }

/-- End-of-tick application of the deferred `commands.spawn((meta_data, ))`. -/
def World.flushVessels (w : World) (pend : List (Nat × MetaData)) : World :=
  { entities := w.entities ++ pend.map (fun p => newVessel p.1 p.2)
    nextId := w.nextId + pend.length }

/-- Per-entity body of the aisstream `watch_changed`
(src/src/aisstream.rs, lines 218-237).  Note the query filter in the source is
`Changed<StateVector>` — it requires the entity to carry a (changed)
`StateVector` component in addition to `MetaData`, `Coords`, `PropertyList`
and `ActiveState`; vessel entities never carry a `StateVector`. -/
def aisstream_watch_changed_entity (now : Nat) (e : TrackEntity) : TrackEntity :=
  if e.stateChanged then
    match e.state, e.meta, e.coords, e.props, e.active with
    | some _, some md, some _, some _, some a =>
      { e with coords := some (aisstream.to_coords md)
               props := some (aisstream.to_props md)
               active := some (a.toggle now)
               sync := some ObjectNeedSync.Update }
    | _, _, _, _, _ => e
  else e

def aisstream_watch_changed (now : Nat) (w : World) : World :=
  { w with entities := w.entities.map (aisstream_watch_changed_entity now) }

/-- Per-entity body of the aisstream `watch_added`
(src/src/aisstream.rs, lines 203-216): for entities matching
`Added<MetaData>`, insert the derived coords and props, the
`ObjectNeedSync::Spawn` marker, and `ActiveState::always()`. -/
def aisstream_watch_added_entity (e : TrackEntity) : TrackEntity :=
  if e.metaAdded then
    match e.meta with
    | some md =>
      { e with coords := some (aisstream.to_coords md)
               props := some (aisstream.to_props md)
               sync := some ObjectNeedSync.Spawn
               active := some ActiveState.always }
    | none => e
  else e

def aisstream_watch_added (w : World) : World :=
  { w with entities := w.entities.map aisstream_watch_added_entity }

/-- One reconciliation tick of the AISStream feed; `none` when
`handle_raw_packet` panics on an undecodable frame (the watcher systems of
that tick never run on the aborted state). -/
def aisstream_tick (now : Nat) (packets : List (Option AuthMessage)) (w : World)
    (idx : MSSIIndex) : Option (World × MSSIIndex) :=
  match handle_raw_packet packets w idx [] with
  | none => none
  | some (w1, idx1, pend) =>
    some (World.clearFlags (aisstream_watch_added
            (aisstream_watch_changed now (World.flushVessels w1 pend))), idx1)

/-- Number of committed records whose stored `StateVector` carries the given
aircraft key. -/
def World.keyCount (w : World) (k : String) : Nat :=
  (w.entities.filter (fun e =>
    match e.state with
    | some sv => sv.icao24 == k
    | none => false)).length

/-! ## Concrete inputs used by the counterexamples and witnesses -/

/-- An OpenSky report for aircraft `"a"` with position timestamp 1 and no
position fields. -/
def innerA1 : InnerStateVector :=
  { f0 := "a", f1 := none, f2 := "X", f3 := some 1, f4 := 1, f5 := none,
    f6 := none, f7 := none, f8 := false, f9 := none, f10 := none, f11 := none,
    f12 := none, f13 := none, f14 := none, f15 := false, f16 := 0 }

/-- Same aircraft and position timestamp as `innerA1`, but with a different
latitude (tuple slot 6): a comparable field differs. -/
def innerA1lat : InnerStateVector := { innerA1 with f6 := some 10 }

/-- Same aircraft as `innerA1` with a newer position timestamp. -/
def innerA2 : InnerStateVector := { innerA1 with f3 := some 2 }

/-- An OpenSky report with every optional field absent. -/
def innerBare : InnerStateVector :=
  { innerA1 with f0 := "b", f3 := none, f4 := 0 }

def svA : StateVector := StateVector.fromInner innerA1

/-- A committed aircraft record for key `"a"`, fully initialized (as after its
Spawn tick at time 0), with handle 5. -/
def acEnt : TrackEntity :=
  { id := 5, state := some svA, meta := none,
    coords := some (opensky.to_coords svA), props := some (opensky.to_props svA),
    sync := none, active := some (ActiveState.new 20 0),
    stateChanged := false, stateAdded := false, metaChanged := false, metaAdded := false }

/-- A one-aircraft world. -/
def wA : World := { entities := [acEnt], nextId := 6 }

/-- A vessel report for station 123. -/
def md1 : MetaData :=
  { mmsi := 123, ship_name := "A", longitude := 1, latitude := 2, time_utc := "t" }

/-- The same station with a different ship name: a comparable field differs. -/
def md2 : MetaData := { md1 with ship_name := "B" }

/-! ## Helper lemmas -/

theorem list_map_self {α : Type} (f : α → α) :
    ∀ l : List α, (∀ a ∈ l, f a = a) → l.map f = l
  | [], _ => rfl
  | a :: l, h => by
    have h1 := h a (List.mem_cons_self a l)
    have h2 := list_map_self f l (fun b hb => h b (List.mem_cons_of_mem a hb))
    simp [h1, h2]

/-- When some committed entity already stores the incoming report's key, the
query scan finds it: the upsert is an in-place update that preserves the
entity ids (hence the handles and the store size). -/
theorem set_if_neq_first_preserves (new : StateVector) :
    ∀ l : List TrackEntity,
      (∃ e ∈ l, ∃ sv, e.state = some sv ∧ sv.icao24 = new.icao24) →
      ∃ l', set_if_neq_first l new = some l' ∧
        l'.map TrackEntity.id = l.map TrackEntity.id
  | [], h => by simp at h
  | e :: rest, h => by
    rcases h with ⟨e0, he0, sv0, hst0, hkey0⟩
    cases hse : e.state with
    | some sv =>
      by_cases hkey : sv.icao24 = new.icao24
      · by_cases heqv : StateVector.eqv sv new
        · exact ⟨e :: rest, by simp [set_if_neq_first, hse, hkey, heqv], rfl⟩
        · refine ⟨{ e with state := some new, stateChanged := true } :: rest,
            by simp [set_if_neq_first, hse, hkey, heqv], ?_⟩
          simp
      · have hmem : e0 ∈ rest := by
          rcases List.mem_cons.mp he0 with h0 | h0
          · subst h0
            rw [hse] at hst0
            cases hst0
            exact absurd hkey0 hkey
          · exact h0
        rcases set_if_neq_first_preserves new rest ⟨e0, hmem, sv0, hst0, hkey0⟩
          with ⟨r, hr, hids⟩
        exact ⟨e :: r, by simp [set_if_neq_first, hse, hkey, hr], by simp [hids]⟩
    | none =>
      have hmem : e0 ∈ rest := by
        rcases List.mem_cons.mp he0 with h0 | h0
        · subst h0
          rw [hse] at hst0
          cases hst0
        · exact h0
      rcases set_if_neq_first_preserves new rest ⟨e0, hmem, sv0, hst0, hkey0⟩
        with ⟨r, hr, hids⟩
      exact ⟨e :: r, by simp [set_if_neq_first, hse, hr], by simp [hids]⟩

/-- When every committed record carrying the incoming report's key stores
exactly the incoming report, a successful scan leaves the entity list
untouched. -/
theorem set_if_neq_first_id (new : StateVector) :
    ∀ l : List TrackEntity,
      (∀ e ∈ l, ∀ sv, e.state = some sv → sv.icao24 = new.icao24 → sv = new) →
      ∀ l', set_if_neq_first l new = some l' → l' = l
  | [], _, l', hl' => by simp [set_if_neq_first] at hl'
  | e :: rest, h, l', hl' => by
    cases hse : e.state with
    | some sv =>
      by_cases hkey : sv.icao24 = new.icao24
      · have hsv : sv = new := h e (List.mem_cons_self e rest) sv hse hkey
        have heqv : StateVector.eqv sv new := by
          rw [hsv]
          exact ⟨rfl, rfl⟩
        rw [set_if_neq_first, hse] at hl'
        simp [hkey, heqv] at hl'
        exact hl'.symm
      · rw [set_if_neq_first, hse] at hl'
        simp only [if_neg hkey] at hl'
        cases hrec : set_if_neq_first rest new with
        | some r =>
          rw [hrec] at hl'
          have hr : r = rest := set_if_neq_first_id new rest
            (fun e' he' => h e' (List.mem_cons_of_mem e he')) r hrec
          simp at hl'
          rw [← hl', hr]
        | none =>
          rw [hrec] at hl'
          simp at hl'
    | none =>
      rw [set_if_neq_first, hse] at hl'
      cases hrec : set_if_neq_first rest new with
      | some r =>
        rw [hrec] at hl'
        have hr : r = rest := set_if_neq_first_id new rest
          (fun e' he' => h e' (List.mem_cons_of_mem e he')) r hrec
        simp at hl'
        rw [← hl', hr]
      | none =>
        rw [hrec] at hl'
        simp at hl'

theorem flushAircraft_nil (w : World) : World.flushAircraft w [] = w := by
  simp [World.flushAircraft]

theorem opensky_watch_changed_entity_self (now : Nat) (e : TrackEntity)
    (h : e.stateChanged = false) : opensky_watch_changed_entity now e = e := by
  simp [opensky_watch_changed_entity, h]

theorem opensky_watch_added_entity_self (now : Nat) (e : TrackEntity)
    (h : e.stateAdded = false) : opensky_watch_added_entity now e = e := by
  simp [opensky_watch_added_entity, h]

theorem clearFlags_entity_self (e : TrackEntity) (h1 : e.stateChanged = false)
    (h2 : e.stateAdded = false) (h3 : e.metaChanged = false)
    (h4 : e.metaAdded = false) : TrackEntity.clearFlags e = e := by
  cases e
  simp only [TrackEntity.clearFlags]
  simp_all

/-! ## Claims -/

/-- C1 counterexample: the claim "upsert returns Unchanged exactly when every
comparable field of the incoming report equals the stored value" is false at a
concrete input.  The incoming report `innerA1lat` differs from the stored
record in a comparable field (latitude) while agreeing on `icao24` and
`time_position`; the hand-written `PartialEq` declares them equal, so the tick
classifies it Unchanged: the store is left completely untouched (the stored
latitude stays `none`) and no Update is emitted. -/
theorem C1_counterexample :
    StateVector.fromInner innerA1lat ≠ svA
    ∧ (StateVector.fromInner innerA1lat).latitude ≠ svA.latitude
    ∧ opensky_tick 15 [some ⟨15, [innerA1lat]⟩] wA = wA := by
  refine ⟨by decide, by decide, by decide⟩

/-- C1 (amended): for a key already present, the aircraft upsert classifies
the report by equality of `icao24` and `time_position` only — Unchanged
exactly when the stored `time_position` equals the incoming one (regardless of
every other comparable field), Changed otherwise (then the whole component is
replaced and flagged); the vessel upsert classifies by full field-wise
structural equality of `MetaData`. -/
theorem C1_amended_classification :
    (∀ (e : TrackEntity) (rest : List TrackEntity) (sv new : StateVector),
      e.state = some sv → sv.icao24 = new.icao24 →
      set_if_neq_first (e :: rest) new =
        some ((if sv.time_position = new.time_position then e
               else { e with state := some new, stateChanged := true }) :: rest))
    ∧ (∀ (ent : Nat) (md old : MetaData) (e : TrackEntity),
      e.id = ent → e.meta = some old →
      set_meta_if_neq_entity ent md e =
        (if old = md then e
         else { e with meta := some md, metaChanged := true })) := by
  constructor
  · intro e rest sv new hse hkey
    by_cases htp : sv.time_position = new.time_position
    · have heqv : StateVector.eqv sv new := ⟨hkey, htp⟩
      simp [set_if_neq_first, hse, hkey, heqv, htp]
    · have heqv : ¬ StateVector.eqv sv new := fun hc => htp hc.2
      simp [set_if_neq_first, hse, hkey, heqv, htp]
  · intro ent md old e hid hmeta
    simp [set_meta_if_neq_entity, hid, hmeta]

/-- C1 witness: the amended classification applied to the concrete stored
aircraft record `acEnt` with a newer-timestamp report, and to a concrete
stored vessel record with a renamed-ship report. -/
theorem C1_amended_classification_witness :
    set_if_neq_first [acEnt] (StateVector.fromInner innerA2) =
      some ((if svA.time_position = (StateVector.fromInner innerA2).time_position then acEnt
             else { acEnt with state := some (StateVector.fromInner innerA2),
                               stateChanged := true }) :: [])
    ∧ set_meta_if_neq_entity (newVessel 0 md1).id md2 (newVessel 0 md1) =
      (if md1 = md2 then newVessel 0 md1
       else { newVessel 0 md1 with meta := some md2, metaChanged := true }) :=
  ⟨C1_amended_classification.1 acEnt [] svA (StateVector.fromInner innerA2) rfl rfl,
   C1_amended_classification.2 (newVessel 0 md1).id md2 md1 (newVessel 0 md1) rfl rfl⟩

/-- C2 counterexample: a single fetched batch containing two reports with the
same (previously unseen) key leaves TWO records for that key: neither report
finds the key among the committed entities (pending spawns are invisible to
the query), so both are pushed to `new_batches` and both are spawned at the
flush. -/
theorem C2_counterexample :
    (opensky_tick 0 [some ⟨0, [innerA1, innerA2]⟩] World.empty).entities.length = 2
    ∧ World.keyCount (opensky_tick 0 [some ⟨0, [innerA1, innerA2]⟩] World.empty) "a" = 2 := by
  refine ⟨by decide, by decide⟩

/-- C2 (amended): uniqueness holds against the committed store — an aircraft
report whose key is already committed updates in place and never adds a
record or a pending spawn, and a vessel report whose key is in the index never
spawns (the committed record count is preserved); only two same-unseen-key
reports within one aircraft batch can duplicate a key. -/
theorem C2_amended_uniqueness (w : World) (pend : List StateVector)
    (new : StateVector) (md : MetaData) (idx : MSSIIndex) (eid : Nat)
    (hpresent : ∃ e ∈ w.entities, ∃ sv, e.state = some sv ∧ sv.icao24 = new.icao24)
    (hidx : indexGet idx md.mmsi = some eid) :
    ((upsert_state w pend new).1.entities.length = w.entities.length
      ∧ (upsert_state w pend new).2 = pend)
    ∧ (handle_raw_packet [some (AuthMessage.Message (some md))] w idx [] =
        some (World.set_meta_if_neq w eid md, idx, [])
      ∧ (World.set_meta_if_neq w eid md).entities.length = w.entities.length) := by
  rcases set_if_neq_first_preserves new w.entities hpresent with ⟨l', hl', hids⟩
  have hlen : l'.length = w.entities.length := by
    have h2 := congrArg List.length hids
    simpa using h2
  refine ⟨⟨?_, ?_⟩, ?_, ?_⟩
  · simp [upsert_state, hl', hlen]
  · simp [upsert_state, hl']
  · simp [handle_raw_packet, hidx]
  · simp [World.set_meta_if_neq]

/-- C2 witness: the amended statement at the concrete one-aircraft world `wA`
with a same-key report, and a concrete indexed vessel. -/
theorem C2_amended_uniqueness_witness :
    ((upsert_state wA [] (StateVector.fromInner innerA2)).1.entities.length = wA.entities.length
      ∧ (upsert_state wA [] (StateVector.fromInner innerA2)).2 = [])
    ∧ (handle_raw_packet [some (AuthMessage.Message (some md1))] wA [(123, 0)] [] =
        some (World.set_meta_if_neq wA 0 md1, [(123, 0)], [])
      ∧ (World.set_meta_if_neq wA 0 md1).entities.length = wA.entities.length) :=
  C2_amended_uniqueness wA [] (StateVector.fromInner innerA2) md1 [(123, 0)] 0
    ⟨acEnt, by decide, svA, rfl, rfl⟩ (by decide)

/-- C3 counterexample: the claim "every record whose age exceeds the feed's
timeout window is removed from the Track Store" is false.  At time 100 the
aircraft record (window 20 s, last seen 0) is selected by the sweep, but the
`watch_timeout` handler only inserts the `Destroy` marker: the record — its
`StateVector`, its components and its handle — remains in the store. -/
theorem C3_counterexample :
    sweepTimeouts 100 wA = [5]
    ∧ sweep_tick 100 wA =
        { entities := [{ acEnt with sync := some ObjectNeedSync.Destroy }], nextId := 6 }
    ∧ (sweep_tick 100 wA).entities.map TrackEntity.state = [some svA] := by
  refine ⟨by decide, by decide, by decide⟩

/-- C3 (amended): the sweep raises a timeout exactly for records with a
finite window whose age exceeds it — a record refreshed within its window is
never selected, and a vessel record (`ActiveState::always()`, no window) is
never selected at any age; the `watch_timeout` handler marks the selected
records with a Destroy sync event but removes nothing: the store's handles,
stored reports and liveness states are all preserved. -/
theorem C3_amended_sweep :
    (∀ (now : Nat) (e : TrackEntity),
      expired now e = true ↔
        ∃ a t, e.active = some a ∧ a.timeout = some t ∧ now - a.last_seen > t)
    ∧ (∀ (now : Nat) (e : TrackEntity) (a : ActiveState),
      e.active = some a → a.timeout = none → expired now e = false)
    ∧ (∀ (now : Nat) (e : TrackEntity) (a : ActiveState) (t : Nat),
      e.active = some a → a.timeout = some t → now - a.last_seen ≤ t →
        expired now e = false)
    ∧ (∀ (events : List Nat) (w : World),
      (watch_timeout events w).entities.map TrackEntity.id = w.entities.map TrackEntity.id
      ∧ (watch_timeout events w).entities.map TrackEntity.state
          = w.entities.map TrackEntity.state
      ∧ (watch_timeout events w).entities.map TrackEntity.active
          = w.entities.map TrackEntity.active) := by
  refine ⟨?_, ?_, ?_, ?_⟩
  · intro now e
    cases ha : e.active with
    | none => simp [expired, ha]
    | some a =>
      cases ht : a.timeout with
      | none => simp [expired, ha, ht]
      | some t => simp [expired, ha, ht]
  · intro now e a ha ht
    simp [expired, ha, ht]
  · intro now e a t ha ht hle
    simp [expired, ha, ht]
    omega
  · intro events w
    refine ⟨?_, ?_, ?_⟩
    · simp [watch_timeout, List.map_map]
      intro a _
      by_cases h : a.id ∈ events <;> simp [h]
    · simp [watch_timeout, List.map_map]
      intro a _
      by_cases h : a.id ∈ events <;> simp [h]
    · simp [watch_timeout, List.map_map]
      intro a _
      by_cases h : a.id ∈ events <;> simp [h]

/-- C3 witness: a never-expiring vessel liveness state at a large age, the
in-window aircraft record at time 10, and preservation of the stored states
under a concrete Destroy marking. -/
theorem C3_amended_sweep_witness :
    expired 1000 { acEnt with active := some ActiveState.always } = false
    ∧ expired 10 acEnt = false
    ∧ (watch_timeout [5] wA).entities.map TrackEntity.state
        = wA.entities.map TrackEntity.state :=
  ⟨C3_amended_sweep.2.1 1000 { acEnt with active := some ActiveState.always }
      ActiveState.always rfl rfl,
   C3_amended_sweep.2.2.1 10 acEnt (ActiveState.new 20 0) 20 rfl rfl (by decide),
   (C3_amended_sweep.2.2.2 [5] wA).2.1⟩

/-- First vessel tick: station 123 spawns with ship name "A". -/
def c4step1 : Option (World × MSSIIndex) :=
  aisstream_tick 0 [some (AuthMessage.Message (some md1))] World.empty []

/-- Second vessel tick: the same station reports a different ship name. -/
def c4step2 : Option (World × MSSIIndex) :=
  match c4step1 with
  | some (w, idx) => aisstream_tick 1 [some (AuthMessage.Message (some md2))] w idx
  | none => none

def c4world : World := (c4step2.getD (World.empty, [])).1

/-- C4: on the vessel feed the claim fails and the spec is clearly the
intent — the aisstream `watch_changed` query filters on `Changed<StateVector>`
(a component vessel entities never carry; a copy-paste slip from the aircraft
file), so a vessel report that differs from the stored record updates the
stored `MetaData` yet emits NO Update event: the sync marker stays `Spawn`,
the coords/props payload stays the one derived from the old report, and the
liveness flag is not toggled.  (The aircraft-side `watch_changed` does behave
as claimed.) -/
theorem C4_bug_eval :
    c4step2.isSome = true
    ∧ c4world.entities.map TrackEntity.meta = [some md2]
    ∧ c4world.entities.map TrackEntity.sync = [some ObjectNeedSync.Spawn]
    ∧ c4world.entities.map TrackEntity.coords = [some (aisstream.to_coords md1)]
    ∧ c4world.entities.map TrackEntity.props = [some (aisstream.to_props md1)]
    ∧ c4world.entities.map TrackEntity.active = [some ActiveState.always] := by
  refine ⟨by decide, by decide, by decide, by decide, by decide, by decide⟩

/-- C5 counterexample: the claim "the record's last_seen is refreshed" on an
Unchanged report is false.  The stored record was last seen at time 0; an
identical report arrives at time 15, and the tick leaves the world — in
particular the record's liveness state with `last_seen = 0` — completely
untouched: nothing in the code refreshes anything on an Unchanged report. -/
theorem C5_counterexample :
    acEnt.active = some (ActiveState.new 20 0)
    ∧ (ActiveState.new 20 0).last_seen = 0
    ∧ opensky_tick 15 [some ⟨15, [innerA1]⟩] wA = wA := by
  refine ⟨rfl, rfl, by decide⟩

/-- C5 (amended): an accepted report identical to the stored record emits no
lifecycle event and leaves the whole store exactly as it was — every stored
field, the liveness flag, the internal handle, AND `last_seen` (which the
code does not refresh on an Unchanged report): the tick is the identity on
the world. -/
theorem C5_amended_frame (now t : Nat) (w : World) (inner : InnerStateVector)
    (hflags : ∀ e ∈ w.entities, e.stateChanged = false ∧ e.stateAdded = false
      ∧ e.metaChanged = false ∧ e.metaAdded = false)
    (hmatch : ∀ e ∈ w.entities, ∀ sv, e.state = some sv →
      sv.icao24 = (StateVector.fromInner inner).icao24 →
      sv = StateVector.fromInner inner)
    (hpresent : ∃ e ∈ w.entities, ∃ sv, e.state = some sv
      ∧ sv.icao24 = (StateVector.fromInner inner).icao24) :
    opensky_tick now [some ⟨t, [inner]⟩] w = w := by
  rcases set_if_neq_first_preserves (StateVector.fromInner inner) w.entities hpresent
    with ⟨l', hl', _⟩
  have hid : l' = w.entities := set_if_neq_first_id _ w.entities hmatch l' hl'
  subst hid
  have hup : upsert_state w [] (StateVector.fromInner inner) = (w, []) := by
    simp [upsert_state, hl']
  have hresp : handle_state_response [some ⟨t, [inner]⟩] w [] = (w, []) := by
    simp [handle_state_response, upsert_states, hup]
  have hwc : opensky_watch_changed now w = w := by
    have hm : w.entities.map (opensky_watch_changed_entity now) = w.entities :=
      list_map_self _ w.entities
        (fun e he => opensky_watch_changed_entity_self now e (hflags e he).1)
    simp [opensky_watch_changed, hm]
  have hwa : opensky_watch_added now w = w := by
    have hm : w.entities.map (opensky_watch_added_entity now) = w.entities :=
      list_map_self _ w.entities
        (fun e he => opensky_watch_added_entity_self now e (hflags e he).2.1)
    simp [opensky_watch_added, hm]
  have hcf : World.clearFlags w = w := by
    have hm : w.entities.map TrackEntity.clearFlags = w.entities :=
      list_map_self _ w.entities
        (fun e he => clearFlags_entity_self e (hflags e he).1 (hflags e he).2.1
          (hflags e he).2.2.1 (hflags e he).2.2.2)
    simp [World.clearFlags, hm]
  simp [opensky_tick, hresp, flushAircraft_nil, hwc, hwa, hcf]

/-- C5 witness: the amended frame property applied at the concrete
one-aircraft world `wA` with an identical re-report at time 15. -/
theorem C5_amended_frame_witness :
    opensky_tick 15 [some ⟨15, [innerA1]⟩] wA = wA :=
  C5_amended_frame 15 15 wA innerA1 (by decide)
    (by
      intro e he sv hst hkey
      have he' : e = acEnt := by simpa [wA] using he
      subst he'
      have hsv : some svA = some sv := hst
      cases hsv
      rfl)
    ⟨acEnt, by decide, svA, rfl, rfl⟩

/-- C6 counterexample: the claim "a later report after a Destroy creates a
brand-new Track Record with a fresh internal handle" is false.  After the
sweep has marked aircraft "a" (handle 5) destroyed, a later same-key report
finds the still-present record, updates it in place, and emits an Update —
the store still holds exactly one record with the ORIGINAL handle 5, not a
brand-new one. -/
theorem C6_counterexample :
    (opensky_tick 100 [some ⟨100, [innerA2]⟩] (sweep_tick 100 wA)).entities.map
        TrackEntity.id = [5]
    ∧ (opensky_tick 100 [some ⟨100, [innerA2]⟩] (sweep_tick 100 wA)).entities.length = 1
    ∧ (opensky_tick 100 [some ⟨100, [innerA2]⟩] (sweep_tick 100 wA)).entities.map
        TrackEntity.sync = [some ObjectNeedSync.Update] := by
  refine ⟨by decide, by decide, by decide⟩

/-- C6 (amended): this repository's code never removes a record from the
Track Store, so a report whose key is present — destroyed-marked or not — is
an in-place update: the handles are preserved pointwise, nothing is pended
for spawning, and the entity-id allocator does not advance (no fresh handle
is ever assigned for a present key). -/
theorem C6_amended_handle_reuse (w : World) (pend : List StateVector)
    (new : StateVector)
    (hpresent : ∃ e ∈ w.entities, ∃ sv, e.state = some sv ∧ sv.icao24 = new.icao24) :
    (upsert_state w pend new).1.entities.map TrackEntity.id
        = w.entities.map TrackEntity.id
    ∧ (upsert_state w pend new).2 = pend
    ∧ (upsert_state w pend new).1.nextId = w.nextId := by
  rcases set_if_neq_first_preserves new w.entities hpresent with ⟨l', hl', hids⟩
  refine ⟨?_, ?_, ?_⟩ <;> simp [upsert_state, hl', hids]

/-- C6 witness: the amended statement at the destroyed-marked one-aircraft
world with a later same-key report. -/
theorem C6_amended_handle_reuse_witness :
    (upsert_state (sweep_tick 100 wA) [] (StateVector.fromInner innerA2)).1.entities.map
        TrackEntity.id = (sweep_tick 100 wA).entities.map TrackEntity.id
    ∧ (upsert_state (sweep_tick 100 wA) [] (StateVector.fromInner innerA2)).2 = []
    ∧ (upsert_state (sweep_tick 100 wA) [] (StateVector.fromInner innerA2)).1.nextId
        = (sweep_tick 100 wA).nextId :=
  C6_amended_handle_reuse (sweep_tick 100 wA) [] (StateVector.fromInner innerA2)
    ⟨{ acEnt with sync := some ObjectNeedSync.Destroy }, by decide, svA, rfl, rfl⟩

/-- C7 counterexample: the claim "coordinate fields absent from the incoming
report are never defaulted to zero, except vessel altitude" is false.  An
aircraft report carries no roll or pitch at all, yet the emitted Spawn payload
carries `roll = Some(0.0)` and `pitch = Some(0.0)`. -/
theorem C7_counterexample :
    (opensky_tick 0 [some ⟨0, [innerBare]⟩] World.empty).entities.map TrackEntity.coords
      = [some (opensky.to_coords (StateVector.fromInner innerBare))]
    ∧ (opensky.to_coords (StateVector.fromInner innerBare)).roll = some 0
    ∧ (opensky.to_coords (StateVector.fromInner innerBare)).pitch = some 0
    ∧ (StateVector.fromInner innerBare).longitude = none
    ∧ (opensky.to_coords (StateVector.fromInner innerBare)).longitude = none := by
  refine ⟨by decide, rfl, rfl, rfl, rfl⟩

/-- C7 (amended): aircraft longitude/latitude/altitude/yaw propagate exactly
as reported (absent stays absent) and u/v/heading are absent, but roll and
pitch are always emitted as zero; vessel coordinates are always present with
altitude the ground-level sentinel zero; and the payload attached at Spawn is
exactly the one derived from the report. -/
theorem C7_amended_coords :
    (∀ sv : StateVector, opensky.to_coords sv =
      { longitude := sv.longitude, latitude := sv.latitude,
        altitude := sv.baro_altitude, u := none, v := none,
        roll := some 0, pitch := some 0, yaw := sv.true_track, heading := none })
    ∧ (∀ md : MetaData, aisstream.to_coords md =
      { longitude := some md.longitude, latitude := some md.latitude,
        altitude := some 0, u := none, v := none,
        roll := none, pitch := none, yaw := none, heading := none })
    ∧ (∀ (now : Nat) (inner : InnerStateVector),
      (opensky_tick now [some ⟨now, [inner]⟩] World.empty).entities.map
          TrackEntity.coords
        = [some (opensky.to_coords (StateVector.fromInner inner))]) :=
  ⟨fun _ => rfl, fun _ => rfl, fun _ _ => rfl⟩

/-- C8: confirmed — each emitted property list is exactly the ordered list
drawn from the feed's descriptive fields: for aircraft, Name and ICAO24 from
the identifier and Country from the origin country, with CallSign appended
exactly when a callsign is present (an absent callsign is omitted, never
emitted empty); for vessels, CallSign from the ship name and the Watercraft
type tag. -/
theorem C8_props :
    (∀ sv : StateVector, opensky.to_props sv =
      [Property.Name sv.icao24, Property.ICAO24 sv.icao24,
       Property.Country sv.origin_country]
        ++ (match sv.callsign with
            | some c => [Property.CallSign c]
            | none => []))
    ∧ (∀ md : MetaData, aisstream.to_props md =
      [Property.CallSign md.ship_name, Property.Type' [Tag.Watercraft]]) := by
  constructor
  · intro sv
    cases h : sv.callsign <;> simp [opensky.to_props, h]
  · intro md
    rfl

/-- C9 counterexample: the claim "the pass continues processing the remaining
reports of the same tick" after a decode failure is false on the aircraft
feed.  A tick whose first response fails to decode processes NOTHING further:
the second, valid response of the same tick (which alone would have created
the record, second conjunct) is abandoned by the `return` and the store stays
empty. -/
theorem C9_counterexample :
    opensky_tick 0 [none, some ⟨0, [innerA1]⟩] World.empty = World.empty
    ∧ World.keyCount (opensky_tick 0 [some ⟨0, [innerA1]⟩] World.empty) "a" = 1 := by
  refine ⟨by decide, by decide⟩

/-- C9 (amended): on the aircraft feed a batch decode failure creates no
record and mutates nothing — the handler returns immediately with the store
and pending spawns as they were (so the engine is not halted and the next
tick proceeds) — but it abandons all remaining responses of the current tick
(they are processed on a later tick at the earliest); the vessel feed instead
panics on a decode failure. -/
theorem C9_amended_abort :
    (∀ (rest : List (Option StateResponse)) (w : World) (pend : List StateVector),
      handle_state_response (none :: rest) w pend = (w, pend))
    ∧ (∀ (now : Nat) (rest : List (Option StateResponse)) (w : World),
      (opensky_tick now (none :: rest) w).entities.length = w.entities.length) := by
  constructor
  · intro rest w pend
    rfl
  · intro now rest w
    have hresp : handle_state_response (none :: rest) w [] = (w, []) := rfl
    simp [opensky_tick, hresp, flushAircraft_nil, World.clearFlags,
          opensky_watch_added, opensky_watch_changed]

/-- C10: confirmed — a frame whose bytes do not decode as the expected
message shape, or a message whose MetaData fails to deserialize, makes
`handle_raw_packet` panic (the `.unwrap()`), so the valid report queued right
behind it is never processed and the tick produces no state at all. -/
theorem C10_panic :
    handle_raw_packet [none, some (AuthMessage.Message (some md1))]
      World.empty [] [] = none
    ∧ handle_raw_packet
        [some (AuthMessage.Message none), some (AuthMessage.Message (some md1))]
        World.empty [] [] = none
    ∧ aisstream_tick 0 [none, some (AuthMessage.Message (some md1))]
        World.empty [] = none := by
  refine ⟨rfl, rfl, rfl⟩
